import Mathlib

/-!
Verification of the cookie manager resilience core (tools/cookie_manager.py):
the artifact store with its recovery chain, the health scorer, the error
tracker, the circuit breaker, the export protection rule and the
error-classified retry loop.  Python string operations are embedded as
structurally recursive functions on character lists; stateful classes become
explicit state passing; wall-clock times are explicit natural-number
parameters; file writes that may fail are driven by explicit outcome flags.
-/

set_option maxRecDepth 100000

namespace CookieManager

/-! ### Python string primitives -/

/-- Characters stripped by the Python str.strip method. -/
def pySpace (c : Char) : Bool :=
  c == ' ' || c == '\t' || c == '\n' || c == '\r' || c == '\x0b' || c == '\x0c'

/-- Python str.strip on a character list: drop whitespace on both ends. -/
def pyStrip (l : List Char) : List Char :=
  ((l.dropWhile pySpace).reverse.dropWhile pySpace).reverse

/-- Python str.split with a one-character separator (keeps empty pieces). -/
def splitOnChar (sep : Char) : List Char → List (List Char)
  | [] => [[]]
  | c :: cs =>
    let rest := splitOnChar sep cs
    if c == sep then [] :: rest
    else
      match rest with
      | [] => [[c]]
      | h :: t => (c :: h) :: t

/-- Python substring containment (the in operator on str). -/
def isSubList (pat : List Char) : List Char → Bool
  | [] => pat.isEmpty
  | c :: cs => List.isPrefixOf pat (c :: cs) || isSubList pat cs

/-- Python str.lower restricted to the ASCII range, as Char.toLower. -/
def pyLower (l : List Char) : List Char :=
  l.map Char.toLower

/-! ### Cookie content validation (module-level functions of the source) -/

/-- REQUIRED_COOKIES: names that indicate a valid session. -/
def REQUIRED_COOKIES : List String :=
  ["SID", "HSID", "SSID", "APISID", "SAPISID"]

/-- The tab-delimited-name test the source applies per required name. -/
def hasTabbedName (content name : String) : Bool :=
  isSubList ('\t' :: (name.toList ++ ['\t'])) content.toList

/-- has_required_cookies: at least one required session cookie is present. -/
def has_required_cookies (content : String) : Bool :=
  REQUIRED_COOKIES.any (fun name => hasTabbedName content name)

/-- count_required_cookies: how many required cookies are present. -/
def count_required_cookies (content : String) : Nat :=
  (REQUIRED_COOKIES.filter (fun name => hasTabbedName content name)).length

def netscapeHeaderA : List Char := "# Netscape HTTP Cookie File".toList

def netscapeHeaderB : List Char := "# HTTP Cookie File".toList

/-- A line whose stripped form starts with one of the recognized headers. -/
def isHeaderLine (l : List Char) : Bool :=
  List.isPrefixOf netscapeHeaderA (pyStrip l) ||
    List.isPrefixOf netscapeHeaderB (pyStrip l)

/-- A non-comment, non-blank line with at least 7 tab-separated fields. -/
def isCookieLine (l : List Char) : Bool :=
  !(List.isPrefixOf ['#'] (pyStrip l)) && !(pyStrip l).isEmpty &&
    decide (7 ≤ (splitOnChar '\t' l).length)

/-- validate_netscape_format: recognizable header in the first five lines and
at least one well-formed cookie line. -/
def validate_netscape_format (content : String) : Bool :=
  let cl := content.toList
  if cl.isEmpty || (pyStrip cl).isEmpty then false
  else
    let lines := splitOnChar '\n' (pyStrip cl)
    ((lines.take 5).any isHeaderLine) && (lines.any isCookieLine)

/-- Acceptance test used by the recovery chain for the cache and file tiers. -/
def acceptable (c : String) : Bool :=
  validate_netscape_format c && has_required_cookies c

/-! ### CookieHealth (health scorer, v4.0) -/

structure CookieHealth where
  score : Int
  successes : Nat
  failures : Nat
  lastSuccess : Option Nat
  lastFailure : Option Nat
  consecutiveFailures : Nat
deriving DecidableEq, Repr

/-- Initial health state: perfect score, no events seen. -/
def CookieHealth.init : CookieHealth :=
  { score := 100, successes := 0, failures := 0,
    lastSuccess := none, lastFailure := none, consecutiveFailures := 0 }

/-- record_success: slow score recovery, consecutive streak reset. -/
def CookieHealth.record_success (h : CookieHealth) (now : Nat) : CookieHealth :=
  { h with successes := h.successes + 1, lastSuccess := some now,
           consecutiveFailures := 0, score := min 100 (h.score + 5) }

/-- record_failure: the streak counter is incremented first, then the
penalty is computed from the incremented value. -/
def CookieHealth.record_failure (h : CookieHealth) (error_type : String)
    (now : Nat) : CookieHealth :=
  let consec := h.consecutiveFailures + 1
  let penalty : Int :=
    (if error_type = "InvalidCookies" || error_type = "BotDetection"
     then 15 else 10) + (consec : Int) * 5
  { h with failures := h.failures + 1, lastFailure := some now,
           consecutiveFailures := consec, score := max 0 (h.score - penalty) }

/-- record_refresh_success: partial score recovery. -/
def CookieHealth.record_refresh_success (h : CookieHealth) : CookieHealth :=
  { h with score := min 100 (h.score + 20), consecutiveFailures := 0 }

inductive HealthEvent where
  | success (now : Nat)
  | failure (now : Nat) (error_type : String)
  | refreshSuccess
deriving DecidableEq, Repr

def CookieHealth.step (h : CookieHealth) : HealthEvent → CookieHealth
  | .success now => h.record_success now
  | .failure now ty => h.record_failure ty now
  | .refreshSuccess => h.record_refresh_success

/-- Run a sequence of health events from the initial state. -/
def runHealth (evs : List HealthEvent) : CookieHealth :=
  evs.foldl CookieHealth.step CookieHealth.init

lemma CookieHealth.step_bounds (h : CookieHealth) (e : HealthEvent)
    (h0 : 0 ≤ h.score) (h1 : h.score ≤ 100) :
    0 ≤ (h.step e).score ∧ (h.step e).score ≤ 100 := by
  cases e with
  | success now =>
      simp only [step, record_success]
      omega
  | failure now ty =>
      simp only [step, record_failure]
      omega
  | refreshSuccess =>
      simp only [step, record_refresh_success]
      omega

lemma runHealth_bounds_aux (evs : List HealthEvent) (h : CookieHealth)
    (h0 : 0 ≤ h.score) (h1 : h.score ≤ 100) :
    0 ≤ (evs.foldl CookieHealth.step h).score ∧
      (evs.foldl CookieHealth.step h).score ≤ 100 := by
  induction evs generalizing h with
  | nil => exact ⟨h0, h1⟩
  | cons e rest ih =>
      have hb := CookieHealth.step_bounds h e h0 h1
      exact ih (h.step e) hb.1 hb.2

/-- C6: for every finite sequence of health events (success, failure of any
kind, refresh success) applied from the initial state, the resulting score
stays within the interval from 0 to 100. -/
theorem health_score_bounded (evs : List HealthEvent) :
    0 ≤ (runHealth evs).score ∧ (runHealth evs).score ≤ 100 :=
  runHealth_bounds_aux evs CookieHealth.init (by decide) (by decide)

/-- C1 counterexample: from the initial state (score 100, zero consecutive
failures), a single InvalidCookies failure yields score 80, not the 85 the
claim asserts, because the streak counter is incremented before the penalty
is computed. -/
theorem record_failure_first_penalty_cex :
    (CookieHealth.init.record_failure "InvalidCookies" 0).score = 80 ∧
      (CookieHealth.init.record_failure "InvalidCookies" 0).score ≠ 85 := by
  constructor <;> decide

/-- C1 (amended): when record_failure is called with the streak counter equal
to c, the score drops by a penalty of (15 for InvalidCookies or BotDetection,
10 otherwise) plus 5 times (c + 1), clamped below at 0, and the streak
counter becomes c + 1. -/
theorem record_failure_penalty (h : CookieHealth) (ty : String) (now c : Nat)
    (hc : h.consecutiveFailures = c) :
    (h.record_failure ty now).score =
      max 0 (h.score -
        ((if ty = "InvalidCookies" || ty = "BotDetection" then 15 else 10) +
          5 * ((c : Int) + 1))) ∧
      (h.record_failure ty now).consecutiveFailures = c + 1 := by
  subst hc
  refine ⟨?_, rfl⟩
  simp only [CookieHealth.record_failure]
  congr 1
  push_cast
  ring

/-- Witness for the amended C1 theorem at the initial state. -/
theorem record_failure_penalty_witness :
    (CookieHealth.init.record_failure "InvalidCookies" 0).score =
      max 0 (CookieHealth.init.score -
        ((if ("InvalidCookies" : String) = "InvalidCookies" ||
            ("InvalidCookies" : String) = "BotDetection" then 15 else 10) +
          5 * ((0 : Int) + 1))) ∧
      (CookieHealth.init.record_failure "InvalidCookies" 0).consecutiveFailures
        = 0 + 1 :=
  record_failure_penalty CookieHealth.init "InvalidCookies" 0 0 rfl

/-! ### Artifact store: memory cache, three file tiers, env bootstrap blob

The store state carries the memory cache (content plus set-time; the md5
integrity check of the source always passes in a pure model, since nothing
can mutate the cached string in place), the three file locations in priority
order (none means the file does not exist or cannot be read), and the decoded
YTDL_COOKIES_B64 blob (none means unset or undecodable). -/

structure Store where
  cache : Option (String × Nat)
  primary : Option String
  backup : Option String
  shadow : Option String
  env : Option String
deriving DecidableEq, Repr

/-- Memory cache TTL in seconds. -/
def CACHE_TTL : Nat := 3600

/-- MemoryCache.get: content within TTL (integrity always holds here). -/
def cacheGet (cache : Option (String × Nat)) (now : Nat) : Option String :=
  match cache with
  | none => none
  | some (c, t) => if CACHE_TTL < now - t then none else some c

/-- Which of the three atomic file writes succeed during a save. -/
structure WriteOk where
  primary : Bool
  backup : Bool
  shadow : Bool
deriving DecidableEq, Repr

def WriteOk.count (ok : WriteOk) : Nat :=
  (if ok.primary then 1 else 0) + (if ok.backup then 1 else 0) +
    (if ok.shadow then 1 else 0)

def WriteOk.all : WriteOk := ⟨true, true, true⟩

/-- save_cookies_everywhere: each location is written atomically (a failed
write leaves the previous file intact), then the memory cache is updated
unconditionally.  Returns the success count with the new store. -/
def save_cookies_everywhere (st : Store) (content : String) (ok : WriteOk)
    (now : Nat) : Nat × Store :=
  (ok.count,
    { st with
      primary := if ok.primary then some content else st.primary,
      backup := if ok.backup then some content else st.backup,
      shadow := if ok.shadow then some content else st.shadow,
      cache := some (content, now) })

/-- One file tier of the recovery chain: accepted only if the file exists and
its content passes both validation checks. -/
def tryFile (file : Option String) : Option String :=
  match file with
  | none => none
  | some c => if acceptable c then some c else none

/-- Layer 5 of the recovery chain: the env blob is accepted on the format
check alone, and a successful use re-saves it into every tier and the cache. -/
def getFromEnv (st : Store) (now : Nat) (ok : WriteOk) : Option String × Store :=
  match st.env with
  | none => (none, st)
  | some content =>
    if validate_netscape_format content then
      (some content, (save_cookies_everywhere st content ok now).2)
    else (none, st)

/-- Layers 2 to 4 of the recovery chain: the file tiers in priority order; a
hit repopulates the memory cache. -/
def getFromFiles (st : Store) (now : Nat) (ok : WriteOk) : Option String × Store :=
  match tryFile st.primary with
  | some c => (some c, { st with cache := some (c, now) })
  | none =>
    match tryFile st.backup with
    | some c => (some c, { st with cache := some (c, now) })
    | none =>
      match tryFile st.shadow with
      | some c => (some c, { st with cache := some (c, now) })
      | none => getFromEnv st now ok

/-- get_best_cookies: memory cache, then file tiers, then the env blob. -/
def get_best_cookies (st : Store) (now : Nat) (ok : WriteOk) :
    Option String × Store :=
  match cacheGet st.cache now with
  | some c => if acceptable c then (some c, st) else getFromFiles st now ok
  | none => getFromFiles st now ok

/-- bootstrap_cookies_from_env: decode the env blob, and write it to the tiers
unless the existing primary file already has at least as many required
cookies, in which case only the memory cache is updated with the existing
content. -/
def bootstrap_cookies_from_env (st : Store) (ok : WriteOk) (now : Nat) :
    Bool × Store :=
  match st.env with
  | none => (false, st)
  | some content =>
    if validate_netscape_format content then
      let env_required := count_required_cookies content
      match st.primary with
      | some existing =>
        if env_required ≤ count_required_cookies existing then
          (false, { st with cache := some (existing, now) })
        else (true, (save_cookies_everywhere st content ok now).2)
      | none => (true, (save_cookies_everywhere st content ok now).2)
    else (false, st)

/-! ### C2: validation gating of the recovery chain -/

lemma tryFile_eq_some {file : Option String} {c : String}
    (h : tryFile file = some c) :
    file = some c ∧ acceptable c = true := by
  match file with
  | none => simp [tryFile] at h
  | some d =>
      simp only [tryFile] at h
      by_cases hd : acceptable d = true
      · simp [hd] at h
        subst h
        exact ⟨rfl, hd⟩
      · simp [hd] at h

lemma getFromEnv_eq_some {st : Store} {now : Nat} {ok : WriteOk} {c : String}
    (h : (getFromEnv st now ok).1 = some c) :
    st.env = some c ∧ validate_netscape_format c = true := by
  match henv : st.env with
  | none => simp [getFromEnv, henv] at h
  | some d =>
      simp only [getFromEnv, henv] at h
      by_cases hd : validate_netscape_format d = true
      · simp [hd] at h
        subst h
        exact ⟨rfl, hd⟩
      · simp [hd] at h

lemma getFromFiles_eq_some {st : Store} {now : Nat} {ok : WriteOk} {c : String}
    (h : (getFromFiles st now ok).1 = some c) :
    validate_netscape_format c = true ∧
      (has_required_cookies c = true ∨ st.env = some c) := by
  simp only [getFromFiles] at h
  match h1 : tryFile st.primary with
  | some d =>
      simp only [h1] at h
      obtain ⟨-, hacc⟩ := tryFile_eq_some h1
      simp only [acceptable, Bool.and_eq_true] at hacc
      cases h
      exact ⟨hacc.1, Or.inl hacc.2⟩
  | none =>
      simp only [h1] at h
      match h2 : tryFile st.backup with
      | some d =>
          simp only [h2] at h
          obtain ⟨-, hacc⟩ := tryFile_eq_some h2
          simp only [acceptable, Bool.and_eq_true] at hacc
          cases h
          exact ⟨hacc.1, Or.inl hacc.2⟩
      | none =>
          simp only [h2] at h
          match h3 : tryFile st.shadow with
          | some d =>
              simp only [h3] at h
              obtain ⟨-, hacc⟩ := tryFile_eq_some h3
              simp only [acceptable, Bool.and_eq_true] at hacc
              cases h
              exact ⟨hacc.1, Or.inl hacc.2⟩
          | none =>
              simp only [h3] at h
              obtain ⟨henv, hval⟩ := getFromEnv_eq_some h
              exact ⟨hval, Or.inr henv⟩

/-- C2 (amended): every artifact returned by the recovery chain passes the
structural format check, and it either contains a required-name record or is
the env bootstrap blob verbatim — the bootstrap decode source is accepted on
the format check alone, without the required-name check. -/
theorem get_best_cookies_validation (st : Store) (now : Nat) (ok : WriteOk)
    (c : String) (h : (get_best_cookies st now ok).1 = some c) :
    validate_netscape_format c = true ∧
      (has_required_cookies c = true ∨ st.env = some c) := by
  simp only [get_best_cookies] at h
  match hc : cacheGet st.cache now with
  | some d =>
      simp only [hc] at h
      by_cases hd : acceptable d = true
      · simp only [hd, if_true] at h
        cases h
        simp only [acceptable, Bool.and_eq_true] at hd
        exact ⟨hd.1, Or.inl hd.2⟩
      · simp only [hd] at h
        simp only [Bool.not_eq_true] at hd
        simp only [hd, Bool.false_eq_true, if_false] at h
        exact getFromFiles_eq_some h
  | none =>
      simp only [hc] at h
      exact getFromFiles_eq_some h

/-- Witness for the amended C2 theorem: a store whose only source is a valid
env blob that does contain a required cookie. -/
theorem get_best_cookies_validation_witness :
    validate_netscape_format
        "# Netscape HTTP Cookie File\n.youtube.com\tTRUE\t/\tTRUE\t0\tSID\tv" =
        true ∧
      (has_required_cookies
          "# Netscape HTTP Cookie File\n.youtube.com\tTRUE\t/\tTRUE\t0\tSID\tv" =
          true ∨
        (Store.mk none none none none
            (some "# Netscape HTTP Cookie File\n.youtube.com\tTRUE\t/\tTRUE\t0\tSID\tv")).env =
          some "# Netscape HTTP Cookie File\n.youtube.com\tTRUE\t/\tTRUE\t0\tSID\tv") :=
  get_best_cookies_validation
    (Store.mk none none none none
      (some "# Netscape HTTP Cookie File\n.youtube.com\tTRUE\t/\tTRUE\t0\tSID\tv"))
    0 WriteOk.all _ (by decide)

/-- C2 counterexample: with the cache and every file tier empty, a format-valid
env blob containing no required-name record is accepted and returned by the
recovery chain, so the required-name check does not gate the bootstrap path. -/
theorem get_best_cookies_env_skips_required_cex :
    (get_best_cookies
        (Store.mk none none none none
          (some "# Netscape HTTP Cookie File\n.youtube.com\tTRUE\t/\tTRUE\t0\tFOO\tbar"))
        0 WriteOk.all).1 =
      some "# Netscape HTTP Cookie File\n.youtube.com\tTRUE\t/\tTRUE\t0\tFOO\tbar" ∧
      has_required_cookies
        "# Netscape HTTP Cookie File\n.youtube.com\tTRUE\t/\tTRUE\t0\tFOO\tbar" =
        false := by
  constructor <;> decide

/-! ### C7: save / load round-trip -/

/-- A format-valid sample artifact containing one required cookie. -/
def sampleRequired : String :=
  "# Netscape HTTP Cookie File\n.youtube.com\tTRUE\t/\tTRUE\t0\tSID\tv"

/-- C7 (amended): whenever save reports at least one successful tier write,
a subsequent load returns the saved artifact unchanged even if other tier
writes failed — provided the artifact passes the format check and contains a
required-name record, and the load happens within the memory-cache TTL of
the save. -/
theorem save_then_load_roundtrip (st : Store) (a : String) (ok okLoad : WriteOk)
    (t now : Nat)
    (hval : validate_netscape_format a = true)
    (hreq : has_required_cookies a = true)
    (_hok : 1 ≤ (save_cookies_everywhere st a ok t).1)
    (htime : now - t ≤ CACHE_TTL) :
    (get_best_cookies (save_cookies_everywhere st a ok t).2 now okLoad).1 =
      some a := by
  simp only [save_cookies_everywhere, get_best_cookies, cacheGet]
  rw [if_neg (by omega)]
  simp [acceptable, hval, hreq]

/-- Witness for the C7 round-trip with only the primary write succeeding. -/
theorem save_then_load_roundtrip_witness :
    validate_netscape_format sampleRequired = true ∧
      has_required_cookies sampleRequired = true ∧
      1 ≤ (save_cookies_everywhere (Store.mk none none none none none)
            sampleRequired (WriteOk.mk true false false) 5).1 ∧
      (5 : Nat) - 5 ≤ CACHE_TTL ∧
      (get_best_cookies
          (save_cookies_everywhere (Store.mk none none none none none)
            sampleRequired (WriteOk.mk true false false) 5).2 5 WriteOk.all).1 =
        some sampleRequired :=
  ⟨by decide, by decide, by decide, by decide,
    save_then_load_roundtrip (Store.mk none none none none none) sampleRequired
      (WriteOk.mk true false false) WriteOk.all 5 5 (by decide) (by decide)
      (by decide) (by decide)⟩

/-- C7 counterexample: saving a content string that fails the format check
succeeds on every tier, yet the immediately following load does not return
it — the recovery chain refuses it everywhere — so the round-trip fails for
artifacts that do not pass validation. -/
theorem save_then_load_roundtrip_cex :
    1 ≤ (save_cookies_everywhere (Store.mk none none none none none) "x"
          WriteOk.all 0).1 ∧
      (get_best_cookies
          (save_cookies_everywhere (Store.mk none none none none none) "x"
            WriteOk.all 0).2 0 WriteOk.all).1 ≠ some "x" := by
  constructor <;> decide

/-! ### C9: the startup bootstrap never downgrades persisted state -/

/-- C9: if the env blob decodes and validates but the existing primary file
has at least as many required cookies, bootstrap returns false and changes
nothing except the memory cache, which receives the existing file content;
any run that returns false leaves every file tier unchanged; and the blob is
written to the tiers only when there is no primary file or the blob has
strictly more required cookies. -/
theorem bootstrap_no_downgrade (st : Store) (ok : WriteOk) (now : Nat) :
    (∀ blob existing, st.env = some blob →
        validate_netscape_format blob = true →
        st.primary = some existing →
        count_required_cookies blob ≤ count_required_cookies existing →
        bootstrap_cookies_from_env st ok now =
          (false, { st with cache := some (existing, now) })) ∧
      ((bootstrap_cookies_from_env st ok now).1 = false →
        (bootstrap_cookies_from_env st ok now).2.primary = st.primary ∧
          (bootstrap_cookies_from_env st ok now).2.backup = st.backup ∧
          (bootstrap_cookies_from_env st ok now).2.shadow = st.shadow) ∧
      ((bootstrap_cookies_from_env st ok now).1 = true →
        ∃ blob, st.env = some blob ∧ validate_netscape_format blob = true ∧
          (st.primary = none ∨ ∃ existing, st.primary = some existing ∧
            count_required_cookies existing < count_required_cookies blob)) := by
  refine ⟨?_, ?_, ?_⟩
  · intro blob existing henv hval hprim hcnt
    simp only [bootstrap_cookies_from_env, henv, hval, if_true, hprim,
      if_pos hcnt]
  · intro hfalse
    match henv : st.env with
    | none => simp [bootstrap_cookies_from_env, henv]
    | some blob =>
        simp only [bootstrap_cookies_from_env, henv] at hfalse ⊢
        by_cases hval : validate_netscape_format blob = true
        · simp only [hval, if_true] at hfalse ⊢
          match hprim : st.primary with
          | none => simp [hprim] at hfalse
          | some existing =>
              simp only [hprim] at hfalse ⊢
              by_cases hcnt : count_required_cookies blob ≤
                  count_required_cookies existing
              · simp [hcnt]
              · simp [hcnt] at hfalse
        · simp only [Bool.not_eq_true] at hval
          simp [hval]
  · intro htrue
    match henv : st.env with
    | none => simp [bootstrap_cookies_from_env, henv] at htrue
    | some blob =>
        refine ⟨blob, rfl, ?_⟩
        simp only [bootstrap_cookies_from_env, henv] at htrue
        by_cases hval : validate_netscape_format blob = true
        · refine ⟨hval, ?_⟩
          simp only [hval, if_true] at htrue
          match hprim : st.primary with
          | none => exact Or.inl rfl
          | some existing =>
              simp only [hprim] at htrue
              by_cases hcnt : count_required_cookies blob ≤
                  count_required_cookies existing
              · simp [hcnt] at htrue
              · exact Or.inr ⟨existing, rfl, by omega⟩
        · simp only [Bool.not_eq_true] at hval
          simp [hval] at htrue

/-- Witness for C9 at a store whose primary file equals the env blob: the
bootstrap keeps the existing file and only refreshes the memory cache. -/
theorem bootstrap_no_downgrade_witness :
    bootstrap_cookies_from_env
        (Store.mk none (some sampleRequired) none none (some sampleRequired))
        WriteOk.all 7 =
      (false,
        { Store.mk none (some sampleRequired) none none (some sampleRequired)
            with cache := some (sampleRequired, 7) }) :=
  (bootstrap_no_downgrade
      (Store.mk none (some sampleRequired) none none (some sampleRequired))
      WriteOk.all 7).1 sampleRequired sampleRequired rfl (by decide) rfl
    (by decide)

/-! ### CircuitBreaker -/

inductive CBState where
  | CLOSED
  | OPEN
  | HALF_OPEN
deriving DecidableEq, Repr

structure CircuitBreaker where
  threshold : Nat
  resetTimeout : Nat
  failures : Nat
  lastFailureTime : Nat
  state : CBState
deriving DecidableEq, Repr

/-- A fresh breaker: closed, no failures recorded. -/
def CircuitBreaker.fresh (threshold resetTimeout : Nat) : CircuitBreaker :=
  { threshold := threshold, resetTimeout := resetTimeout, failures := 0,
    lastFailureTime := 0, state := .CLOSED }

/-- record_failure: count and stamp the failure; open once the count reaches
the threshold. -/
def CircuitBreaker.record_failure (b : CircuitBreaker) (now : Nat) :
    CircuitBreaker :=
  let f := b.failures + 1
  { b with failures := f, lastFailureTime := now,
           state := if b.threshold ≤ f then .OPEN else b.state }

/-- record_success: reset the count and close the circuit. -/
def CircuitBreaker.record_success (b : CircuitBreaker) : CircuitBreaker :=
  { b with failures := 0, state := .CLOSED }

/-- can_execute: closed passes; open passes only strictly after the reset
timeout, moving to half-open as a side effect; half-open passes. -/
def CircuitBreaker.can_execute (b : CircuitBreaker) (now : Nat) :
    Bool × CircuitBreaker :=
  match b.state with
  | .CLOSED => (true, b)
  | .OPEN =>
      if b.resetTimeout < now - b.lastFailureTime then
        (true, { b with state := .HALF_OPEN })
      else (false, b)
  | .HALF_OPEN => (true, b)

/-- A run of consecutive failures at the given times. -/
def recordFailures (b : CircuitBreaker) (ts : List Nat) : CircuitBreaker :=
  ts.foldl CircuitBreaker.record_failure b

lemma recordFailures_const (b : CircuitBreaker) (ts : List Nat) :
    (recordFailures b ts).threshold = b.threshold ∧
      (recordFailures b ts).resetTimeout = b.resetTimeout := by
  induction ts generalizing b with
  | nil => exact ⟨rfl, rfl⟩
  | cons t rest ih =>
      simpa [recordFailures, CircuitBreaker.record_failure] using
        ih (b.record_failure t)

lemma recordFailures_failures (b : CircuitBreaker) (ts : List Nat) :
    (recordFailures b ts).failures = b.failures + ts.length := by
  induction ts generalizing b with
  | nil => simp [recordFailures]
  | cons t rest ih =>
      simp only [recordFailures, List.foldl_cons] at *
      rw [ih (b.record_failure t)]
      simp [CircuitBreaker.record_failure]
      omega

lemma record_failure_state (b : CircuitBreaker) (now : Nat)
    (h : b.threshold ≤ b.failures + 1) :
    (b.record_failure now).state = .OPEN := by
  simp only [CircuitBreaker.record_failure]
  rw [if_pos h]

lemma recordFailures_open (b : CircuitBreaker) (ts : List Nat)
    (hne : ts ≠ []) (hth : b.threshold ≤ b.failures + ts.length) :
    (recordFailures b ts).state = .OPEN := by
  induction ts using List.reverseRecOn with
  | nil => exact absurd rfl hne
  | append_singleton l t _ =>
      simp only [recordFailures, List.foldl_append, List.foldl_cons,
        List.foldl_nil]
      apply record_failure_state
      have hf := recordFailures_failures b l
      have hth' := (recordFailures_const b l).1
      simp only [recordFailures] at hf hth'
      rw [hth', hf]
      simp only [List.length_append, List.length_cons, List.length_nil] at hth
      omega

/-- C4: from a fresh breaker, after exactly threshold consecutive failures
with no intervening success the breaker is open and can_execute is false
within the reset timeout of the last failure; can_execute turns true exactly
when strictly more than the reset timeout has elapsed, moving the breaker to
half-open; in half-open one trial is permitted, a success closes the breaker
and a failure reopens it (making can_execute false again within the
timeout). -/
theorem circuit_breaker_lifecycle (th rt : Nat) (ts : List Nat)
    (hth : 1 ≤ th) (hlen : ts.length = th) :
    (recordFailures (CircuitBreaker.fresh th rt) ts).state = .OPEN ∧
      (∀ T, ((recordFailures (CircuitBreaker.fresh th rt) ts).can_execute T).1
          = true ↔
        rt < T - (recordFailures (CircuitBreaker.fresh th rt) ts).lastFailureTime) ∧
      (∀ T, rt < T -
          (recordFailures (CircuitBreaker.fresh th rt) ts).lastFailureTime →
        (((recordFailures (CircuitBreaker.fresh th rt) ts).can_execute T).2.state
            = .HALF_OPEN) ∧
          (∀ T1, ((((recordFailures (CircuitBreaker.fresh th rt) ts).can_execute
              T).2).can_execute T1).1 = true) ∧
          ((((recordFailures (CircuitBreaker.fresh th rt) ts).can_execute
              T).2.record_success).state = .CLOSED ∧
            ∀ T2, (((((recordFailures (CircuitBreaker.fresh th rt) ts).can_execute
                T).2.record_success)).can_execute T2).1 = true) ∧
          (∀ Tf, ((((recordFailures (CircuitBreaker.fresh th rt) ts).can_execute
              T).2.record_failure Tf).state = .OPEN ∧
            ∀ T3, T3 - Tf ≤ rt →
              (((((recordFailures (CircuitBreaker.fresh th rt) ts).can_execute
                  T).2.record_failure Tf)).can_execute T3).1 = false))) := by
  set b := recordFailures (CircuitBreaker.fresh th rt) ts with hb
  have hstate : b.state = .OPEN := by
    apply recordFailures_open
    · intro h
      rw [h] at hlen
      simp at hlen
      omega
    · simp [CircuitBreaker.fresh, hlen]
  have hrt : b.resetTimeout = rt :=
    (recordFailures_const (CircuitBreaker.fresh th rt) ts).2
  have hthb : b.threshold = th :=
    (recordFailures_const (CircuitBreaker.fresh th rt) ts).1
  have hfail : b.failures = th := by
    have := recordFailures_failures (CircuitBreaker.fresh th rt) ts
    simpa [CircuitBreaker.fresh, hlen] using this
  refine ⟨hstate, ?_, ?_⟩
  · intro T
    simp only [CircuitBreaker.can_execute, hstate, hrt]
    constructor
    · intro h
      by_contra hc
      rw [if_neg hc] at h
      exact Bool.false_ne_true h
    · intro h
      rw [if_pos h]
  · intro T hT
    have hH : (b.can_execute T).2 = { b with state := .HALF_OPEN } := by
      simp only [CircuitBreaker.can_execute, hstate, hrt, if_pos hT]
    rw [hH]
    have hOpen : ∀ Tf,
        (({ b with state := CBState.HALF_OPEN }).record_failure Tf).state
          = CBState.OPEN := by
      intro Tf
      apply record_failure_state
      show b.threshold ≤ b.failures + 1
      rw [hthb, hfail]
      omega
    refine ⟨rfl, fun T1 => rfl, ⟨rfl, fun T2 => rfl⟩, fun Tf => ⟨hOpen Tf, ?_⟩⟩
    intro T3 hT3
    have hlast :
        (({ b with state := CBState.HALF_OPEN }).record_failure Tf).lastFailureTime
          = Tf := rfl
    have hrt2 :
        (({ b with state := CBState.HALF_OPEN }).record_failure Tf).resetTimeout
          = rt := by
      simp only [CircuitBreaker.record_failure]
      exact hrt
    simp only [CircuitBreaker.can_execute, hOpen Tf, hrt2, hlast]
    rw [if_neg (by omega)]

/-- Witness for C4 with the default threshold 5 and reset timeout 600. -/
theorem circuit_breaker_lifecycle_witness :
    (recordFailures (CircuitBreaker.fresh 5 600) [10, 20, 30, 40, 50]).state
        = .OPEN ∧
      ((recordFailures (CircuitBreaker.fresh 5 600)
          [10, 20, 30, 40, 50]).can_execute 100).1 = false ∧
      ((recordFailures (CircuitBreaker.fresh 5 600)
          [10, 20, 30, 40, 50]).can_execute 651).1 = true ∧
      (((recordFailures (CircuitBreaker.fresh 5 600)
          [10, 20, 30, 40, 50]).can_execute 651).2.state = .HALF_OPEN) ∧
      ((((recordFailures (CircuitBreaker.fresh 5 600)
          [10, 20, 30, 40, 50]).can_execute 651).2.record_failure 700).state
        = .OPEN) := by
  have h := circuit_breaker_lifecycle 5 600 [10, 20, 30, 40, 50] (by decide)
    (by decide)
  have h651 : (600 : Nat) < 651 -
      (recordFailures (CircuitBreaker.fresh 5 600)
        [10, 20, 30, 40, 50]).lastFailureTime := by decide
  refine ⟨h.1, ?_, (h.2.1 651).mpr h651, (h.2.2 651 h651).1,
    ((h.2.2 651 h651).2.2.2 700).1⟩
  have := h.2.1 100
  have h100 : ¬ ((600 : Nat) < 100 -
      (recordFailures (CircuitBreaker.fresh 5 600)
        [10, 20, 30, 40, 50]).lastFailureTime) := by decide
  rcases hb : ((recordFailures (CircuitBreaker.fresh 5 600)
      [10, 20, 30, 40, 50]).can_execute 100).1 with _ | _
  · rfl
  · exact absurd (this.mp hb) h100

/-! ### ErrorTracker (feedback loop) -/

/-- One entry of the bounded error window. -/
structure ErrRecord where
  time : Nat
  etype : String
  url : String
deriving DecidableEq, Repr

/-- COOKIE_ERRORS: the qualifying (refresh-triggering) error kinds. -/
def COOKIE_ERRORS : List String :=
  ["InvalidCookies", "BotDetection", "invalid_cookies", "bot_detection"]

structure ErrorTracker where
  errors : List ErrRecord
  emergencyMode : Bool
  emergencyStarted : Option Nat
  lastRefreshTrigger : Nat
  currentQuickCheckInterval : Nat
deriving DecidableEq, Repr

def QUICK_HEALTH_CHECK_INTERVAL : Nat := 300

def EMERGENCY_QUICK_CHECK_INTERVAL : Nat := 30

def REFRESH_COOLDOWN : Nat := 30

def ErrorTracker.init : ErrorTracker :=
  { errors := [], emergencyMode := false, emergencyStarted := none,
    lastRefreshTrigger := 0,
    currentQuickCheckInterval := QUICK_HEALTH_CHECK_INTERVAL }

/-- Keep only the last 100 window entries. -/
def truncate100 (l : List ErrRecord) : List ErrRecord :=
  if 100 < l.length then l.drop (l.length - 100) else l

/-- The qualifying errors of the trailing five minutes (the trigger window). -/
def qualifyingRecent (errors : List ErrRecord) (now : Nat) : List ErrRecord :=
  errors.filter (fun e =>
    decide (now - e.time < 300) && COOKIE_ERRORS.contains e.etype)

/-- The qualifying errors of the trailing ten minutes (the clear window). -/
def qualifyingRecent10 (errors : List ErrRecord) (now : Nat) : List ErrRecord :=
  errors.filter (fun e =>
    decide (now - e.time < 600) && COOKIE_ERRORS.contains e.etype)

/-- The outcome record_error reports back to the caller. -/
inductive RecordAction where
  | ignored
  | cooldown (remaining : Nat)
  | refreshTriggered (emergency : Bool) (recentErrors : Nat)
deriving DecidableEq, Repr

/-- record_error: append to the window (bounded at 100); ignore non-cookie
kinds; report cooldown within 30 seconds of the last trigger; otherwise
enter emergency mode when at least three qualifying errors lie in the
trailing five minutes, and stamp the trigger time. -/
def ErrorTracker.record_error (s : ErrorTracker) (now : Nat)
    (etype url : String) : RecordAction × ErrorTracker :=
  let errors := truncate100 (s.errors ++ [⟨now, etype, url⟩])
  let s1 : ErrorTracker := { s with errors := errors }
  if !COOKIE_ERRORS.contains etype then (.ignored, s1)
  else if now - s1.lastRefreshTrigger < REFRESH_COOLDOWN then
    (.cooldown (REFRESH_COOLDOWN - (now - s1.lastRefreshTrigger)), s1)
  else
    let recent := qualifyingRecent errors now
    let s2 : ErrorTracker :=
      if 3 ≤ recent.length && !s1.emergencyMode then
        { s1 with emergencyMode := true, emergencyStarted := some now,
                  currentQuickCheckInterval := EMERGENCY_QUICK_CHECK_INTERVAL }
      else s1
    let s3 : ErrorTracker := { s2 with lastRefreshTrigger := now }
    (.refreshTriggered s3.emergencyMode recent.length, s3)

/-- exit_emergency_mode: the explicit external clear. -/
def ErrorTracker.exit_emergency_mode (s : ErrorTracker) : ErrorTracker :=
  if !s.emergencyMode then s
  else { s with emergencyMode := false,
                currentQuickCheckInterval := QUICK_HEALTH_CHECK_INTERVAL }

/-- should_refresh: in emergency mode, auto-exit lazily when no error of any
kind was recorded in the trailing ten minutes, and report true; otherwise
false. -/
def ErrorTracker.should_refresh (s : ErrorTracker) (now : Nat) :
    Bool × ErrorTracker :=
  if s.emergencyMode then
    let recent := s.errors.filter (fun e => decide (now - e.time < 600))
    if recent.length = 0 then (true, s.exit_emergency_mode)
    else (true, s)
  else (false, s)

/-- The events that can touch the tracker state. -/
inductive TrackerEvent where
  | recordError (now : Nat) (etype url : String)
  | evalRefresh (now : Nat)
  | healthRecovered
deriving DecidableEq, Repr

def ErrorTracker.stepEvent (s : ErrorTracker) : TrackerEvent → ErrorTracker
  | .recordError now ty url => (s.record_error now ty url).2
  | .evalRefresh now => (s.should_refresh now).2
  | .healthRecovered => s.exit_emergency_mode

def runTracker (evs : List TrackerEvent) : ErrorTracker :=
  evs.foldl ErrorTracker.stepEvent ErrorTracker.init

/-- C3 counterexample: three qualifying errors recorded 10 seconds apart all
fall inside one five-minute window, yet emergency mode stays off, because
the second and third reports land inside the 30-second trigger cooldown and
the emergency rule is never evaluated for them. -/
theorem emergency_trigger_cooldown_cex :
    (runTracker
        [TrackerEvent.recordError 1000 "InvalidCookies" "",
          TrackerEvent.recordError 1010 "InvalidCookies" "",
          TrackerEvent.recordError 1020 "InvalidCookies" ""]).emergencyMode
        = false ∧
      3 ≤ (qualifyingRecent
          (runTracker
            [TrackerEvent.recordError 1000 "InvalidCookies" "",
              TrackerEvent.recordError 1010 "InvalidCookies" "",
              TrackerEvent.recordError 1020 "InvalidCookies" ""]).errors
          1020).length := by
  constructor <;> decide

lemma exit_emergency_mode_off (s : ErrorTracker) :
    (s.exit_emergency_mode).emergencyMode = false := by
  by_cases h : s.emergencyMode <;>
    simp [ErrorTracker.exit_emergency_mode, h]

lemma record_error_emergencyMode (s : ErrorTracker) (now : Nat)
    (ty url : String) :
    ((s.record_error now ty url).2).emergencyMode =
      (s.emergencyMode ||
        (decide (ty ∈ COOKIE_ERRORS) &&
          !(decide (now - s.lastRefreshTrigger < REFRESH_COOLDOWN)) &&
          decide (3 ≤ (qualifyingRecent
              (truncate100 (s.errors ++ [⟨now, ty, url⟩])) now).length))) := by
  simp only [ErrorTracker.record_error]
  by_cases hq : ty ∈ COOKIE_ERRORS
  · by_cases hcool : now - s.lastRefreshTrigger < REFRESH_COOLDOWN
    · simp [hq, hcool]
    · by_cases h3 : 3 ≤ (qualifyingRecent
          (truncate100 (s.errors ++ [⟨now, ty, url⟩])) now).length
      · by_cases hem : s.emergencyMode = true
        · simp [hq, hcool, h3, hem]
        · simp [hq, hcool, h3, hem]
      · by_cases hem : s.emergencyMode = true
        · simp [hq, hcool, h3, hem]
        · simp [hq, hcool, h3, hem]
  · simp [hq]

lemma should_refresh_emergencyMode (s : ErrorTracker) (now : Nat) :
    ((s.should_refresh now).2).emergencyMode =
      (s.emergencyMode &&
        !((s.errors.filter (fun e => decide (now - e.time < 600))).length
            == 0)) := by
  simp only [ErrorTracker.should_refresh]
  by_cases hem : s.emergencyMode = true
  · by_cases hlen :
        (s.errors.filter (fun e => decide (now - e.time < 600))).length = 0
    · simp [hem, hlen, exit_emergency_mode_off]
    · simp [hem, hlen]
  · simp [hem]

lemma qualifyingRecent10_nil_of_no_recent600 (errors : List ErrRecord)
    (now : Nat)
    (h : errors.filter (fun e => decide (now - e.time < 600)) = []) :
    qualifyingRecent10 errors now = [] := by
  apply List.filter_eq_nil_iff.mpr
  intro e he
  have h600 := List.filter_eq_nil_iff.mp h e he
  simp only [decide_eq_true_eq] at h600
  simp only [Bool.and_eq_true, decide_eq_true_eq, not_and]
  intro h600q
  exact absurd h600q h600

/-- C3 (amended): emergency mode turns on exactly when a qualifying error is
recorded at least 30 seconds after the previous trigger (outside the
cooldown) while three or more qualifying errors lie in the trailing
five-minute window; and once on, it turns off only through the lazy
should_refresh evaluation at a moment with zero qualifying errors in the
trailing ten minutes, or through the explicit health-recovered signal. -/
theorem emergency_mode_transitions (s : ErrorTracker) (ev : TrackerEvent) :
    (s.emergencyMode = false →
      ((s.stepEvent ev).emergencyMode = true ↔
        ∃ now ty url, ev = .recordError now ty url ∧
          ty ∈ COOKIE_ERRORS ∧
          REFRESH_COOLDOWN ≤ now - s.lastRefreshTrigger ∧
          3 ≤ (qualifyingRecent (truncate100 (s.errors ++ [⟨now, ty, url⟩]))
              now).length)) ∧
      (s.emergencyMode = true → (s.stepEvent ev).emergencyMode = false →
        ev = .healthRecovered ∨
          ∃ now, ev = .evalRefresh now ∧
            (qualifyingRecent10 s.errors now).length = 0) := by
  constructor
  · intro hoff
    cases ev with
    | healthRecovered =>
        simp only [ErrorTracker.stepEvent, exit_emergency_mode_off]
        constructor
        · intro h
          cases h
        · rintro ⟨now, ty, url, h, -⟩
          cases h
    | evalRefresh now =>
        simp only [ErrorTracker.stepEvent, should_refresh_emergencyMode, hoff,
          Bool.false_and]
        constructor
        · intro h
          cases h
        · rintro ⟨now1, ty, url, h, -⟩
          cases h
    | recordError now ty url =>
        simp only [ErrorTracker.stepEvent, record_error_emergencyMode, hoff,
          Bool.false_or, Bool.and_eq_true, Bool.not_eq_true',
          decide_eq_true_eq, decide_eq_false_iff_not]
        constructor
        · rintro ⟨⟨hq, hcool⟩, h3⟩
          exact ⟨now, ty, url, rfl, hq, Nat.not_lt.mp hcool, h3⟩
        · rintro ⟨now1, ty1, url1, heq, hq, hge, h3⟩
          cases heq
          exact ⟨⟨hq, Nat.not_lt.mpr hge⟩, h3⟩
  · intro hon hoff
    cases ev with
    | healthRecovered => exact Or.inl rfl
    | evalRefresh now =>
        refine Or.inr ⟨now, rfl, ?_⟩
        simp only [ErrorTracker.stepEvent, should_refresh_emergencyMode, hon,
          Bool.true_and] at hoff
        rcases hx : ((s.errors.filter
            (fun e => decide (now - e.time < 600))).length == 0) with _ | _
        · rw [hx] at hoff
          simp at hoff
        · have hlen : (s.errors.filter
              (fun e => decide (now - e.time < 600))).length = 0 :=
            beq_iff_eq.mp hx
          have hnil := List.length_eq_zero.mp hlen
          rw [qualifyingRecent10_nil_of_no_recent600 s.errors now hnil]
          rfl
    | recordError now ty url =>
        exfalso
        simp only [ErrorTracker.stepEvent, record_error_emergencyMode, hon,
          Bool.true_or] at hoff
        cases hoff

/-- Witness for the C3 transition theorem: one qualifying error recorded
outside the cooldown with a full window turns emergency mode on. -/
theorem emergency_mode_transitions_witness :
    ((ErrorTracker.mk
        [⟨900, "InvalidCookies", ""⟩, ⟨950, "BotDetection", ""⟩] false none 0
        QUICK_HEALTH_CHECK_INTERVAL).stepEvent
          (TrackerEvent.recordError 1000 "InvalidCookies" "")).emergencyMode
      = true :=
  ((emergency_mode_transitions
      (ErrorTracker.mk
        [⟨900, "InvalidCookies", ""⟩, ⟨950, "BotDetection", ""⟩] false none 0
        QUICK_HEALTH_CHECK_INTERVAL)
      (TrackerEvent.recordError 1000 "InvalidCookies" "")).1 rfl).mpr
    ⟨1000, "InvalidCookies", "", rfl, by decide, by decide, by decide⟩

/-! ### Browser cookie export and its protection rule -/

/-- A cookie as read back from the browser driver. -/
structure BCookie where
  domain : String
  path : String
  secure : Bool
  expiry : Nat
  name : String
  value : String
deriving DecidableEq, Repr

/-- format_netscape_cookie: one tab-separated record line. -/
def format_netscape_cookie (c : BCookie) : String :=
  let subdomain := if List.isPrefixOf ['.'] c.domain.toList then "TRUE"
                   else "FALSE"
  let secure := if c.secure then "TRUE" else "FALSE"
  let expires := if c.expiry = 0 then "0" else toString c.expiry
  c.domain ++ "\t" ++ subdomain ++ "\t" ++ c.path ++ "\t" ++ secure ++ "\t" ++
    expires ++ "\t" ++ c.name ++ "\t" ++ c.value

/-- Deduplicate by (domain, name), keeping the first occurrence. -/
def dedupCookies : List BCookie → List (String × String) → List BCookie
  | [], _ => []
  | c :: cs, seen =>
    if seen.contains (c.domain, c.name) then dedupCookies cs seen
    else c :: dedupCookies cs ((c.domain, c.name) :: seen)

def RELEVANT_DOMAINS : List String :=
  ["youtube.com", "google.com", "googleapis.com"]

/-- The deduplicated browser cookies restricted to the relevant domains. -/
def relevantOf (raw : List BCookie) : List BCookie :=
  (dedupCookies raw []).filter
    (fun c => RELEVANT_DOMAINS.any (fun d => isSubList d.toList c.domain.toList))

/-- How many required cookie names appear among the relevant cookies. -/
def browserRequiredOf (raw : List BCookie) : Nat :=
  (REQUIRED_COOKIES.filter
    (fun n => (relevantOf raw).any (fun c => c.name == n))).length

/-- The exported Netscape-format content (header lines then records). -/
def buildNetscapeContent (relevant : List BCookie) (genTs : String)
    (browserRequired : Nat) : String :=
  String.intercalate "\n"
    (["# Netscape HTTP Cookie File",
      "# Generated by cookie_manager.py at " ++ genTs,
      "# Required cookies: " ++ toString browserRequired ++ "/" ++
        toString REQUIRED_COOKIES.length,
      ""] ++ relevant.map format_netscape_cookie) ++ "\n"

/-- The export tail once the protection check has passed: build the content,
save it everywhere and report the record count. -/
def finishExport (relevant : List BCookie) (genTs : String)
    (browserRequired : Nat) (st : Store) (needsRelogin : Bool) (now : Nat)
    (okSave : WriteOk) : Nat × Store × Bool :=
  (relevant.length,
    (save_cookies_everywhere st
      (buildNetscapeContent relevant genTs browserRequired) okSave now).2,
    needsRelogin)

/-- _export_cookies_internal: dedup and filter the fresh browser cookies;
without the force flag, when they hold zero required names while the stored
artifact resolves with at least one, reject the export (count 0, relogin
flag raised, nothing saved); otherwise build and save the new content.  The
result is (record count, store, needs-relogin flag). -/
def exportCookiesInternal (force : Bool) (raw : List BCookie) (genTs : String)
    (st : Store) (needsRelogin : Bool) (now : Nat) (okLoad okSave : WriteOk) :
    Nat × Store × Bool :=
  if !force && (browserRequiredOf raw == 0) then
    match get_best_cookies st now okLoad with
    | (some existing, st2) =>
      if 0 < count_required_cookies existing then (0, st2, true)
      else finishExport (relevantOf raw) genTs (browserRequiredOf raw) st2
        needsRelogin now okSave
    | (none, st2) =>
      finishExport (relevantOf raw) genTs (browserRequiredOf raw) st2
        needsRelogin now okSave
  else
    finishExport (relevantOf raw) genTs (browserRequiredOf raw) st
      needsRelogin now okSave

/-- One persisted or cached source holds acceptable content. -/
def okOpt : Option String → Bool
  | some c => acceptable c
  | none => false

/-- The stored artifact (cache or some file tier) is acceptable, i.e. the
recovery chain resolves before reaching the env bootstrap source. -/
def storedAccepted (st : Store) (now : Nat) : Bool :=
  okOpt (cacheGet st.cache now) || okOpt st.primary || okOpt st.backup ||
    okOpt st.shadow

lemma okOpt_false_of_tryFile_none {f : Option String}
    (h : tryFile f = none) : okOpt f = false := by
  match f with
  | none => rfl
  | some c =>
      simp only [tryFile] at h
      by_cases hc : acceptable c = true
      · simp [hc] at h
      · simp only [Bool.not_eq_true] at hc
        simp [okOpt, hc]

lemma getFromFiles_stored (st : Store) (now : Nat) (ok : WriteOk)
    (h : (okOpt st.primary || okOpt st.backup || okOpt st.shadow) = true) :
    ∃ c, getFromFiles st now ok = (some c, { st with cache := some (c, now) })
      ∧ has_required_cookies c = true := by
  simp only [getFromFiles]
  match hp : tryFile st.primary with
  | some c =>
      obtain ⟨-, hacc⟩ := tryFile_eq_some hp
      simp only [acceptable, Bool.and_eq_true] at hacc
      exact ⟨c, rfl, hacc.2⟩
  | none =>
      match hb : tryFile st.backup with
      | some c =>
          obtain ⟨-, hacc⟩ := tryFile_eq_some hb
          simp only [acceptable, Bool.and_eq_true] at hacc
          exact ⟨c, rfl, hacc.2⟩
      | none =>
          match hs : tryFile st.shadow with
          | some c =>
              obtain ⟨-, hacc⟩ := tryFile_eq_some hs
              simp only [acceptable, Bool.and_eq_true] at hacc
              exact ⟨c, rfl, hacc.2⟩
          | none =>
              exfalso
              rw [okOpt_false_of_tryFile_none hp,
                okOpt_false_of_tryFile_none hb,
                okOpt_false_of_tryFile_none hs] at h
              cases h

lemma get_best_cookies_stored (st : Store) (now : Nat) (ok : WriteOk)
    (h : storedAccepted st now = true) :
    ∃ c st2, get_best_cookies st now ok = (some c, st2) ∧
      has_required_cookies c = true ∧
      st2.primary = st.primary ∧ st2.backup = st.backup ∧
      st2.shadow = st.shadow ∧ st2.env = st.env ∧
      (st2.cache = st.cache ∨ st2.cache = some (c, now)) := by
  simp only [storedAccepted] at h
  match hc : cacheGet st.cache now with
  | some c =>
      by_cases hacc : acceptable c = true
      · refine ⟨c, st, ?_, ?_, rfl, rfl, rfl, rfl, Or.inl rfl⟩
        · simp [get_best_cookies, hc, hacc]
        · simp only [acceptable, Bool.and_eq_true] at hacc
          exact hacc.2
      · have hfiles :
            (okOpt st.primary || okOpt st.backup || okOpt st.shadow) = true := by
          rw [hc] at h
          simp only [Bool.not_eq_true] at hacc
          simp only [okOpt, hacc, Bool.false_or] at h
          simpa using h
        obtain ⟨d, heq, hreq⟩ := getFromFiles_stored st now ok hfiles
        refine ⟨d, { st with cache := some (d, now) }, ?_, hreq, rfl, rfl, rfl,
          rfl, Or.inr rfl⟩
        simp only [Bool.not_eq_true] at hacc
        simpa [get_best_cookies, hc, hacc] using heq
  | none =>
      have hfiles :
          (okOpt st.primary || okOpt st.backup || okOpt st.shadow) = true := by
        rw [hc] at h
        simp only [okOpt, Bool.false_or] at h
        simpa using h
      obtain ⟨d, heq, hreq⟩ := getFromFiles_stored st now ok hfiles
      refine ⟨d, { st with cache := some (d, now) }, ?_, hreq, rfl, rfl, rfl,
        rfl, Or.inr rfl⟩
      simpa [get_best_cookies, hc] using heq

lemma count_required_pos {c : String}
    (h : has_required_cookies c = true) : 0 < count_required_cookies c := by
  simp only [has_required_cookies, List.any_eq_true] at h
  obtain ⟨name, hmem, hname⟩ := h
  exact List.length_pos_of_mem (List.mem_filter.mpr ⟨hmem, hname⟩)

/-- C5 (amended): without the force flag, when the fresh browser state holds
zero required-name cookies while the stored artifact resolves with at least
one, the export returns count 0, raises the needs-relogin flag, leaves every
file tier and the env source untouched, and the memory cache is at most
repopulated with the already-stored artifact content (never with the fresh
export). -/
theorem export_protection (raw : List BCookie) (genTs : String) (st : Store)
    (needs : Bool) (now : Nat) (okLoad okSave : WriteOk)
    (hb : browserRequiredOf raw = 0)
    (hs : storedAccepted st now = true) :
    (exportCookiesInternal false raw genTs st needs now okLoad okSave).1 = 0 ∧
      (exportCookiesInternal false raw genTs st needs now okLoad okSave).2.2
        = true ∧
      (exportCookiesInternal false raw genTs st needs now okLoad
          okSave).2.1.primary = st.primary ∧
      (exportCookiesInternal false raw genTs st needs now okLoad
          okSave).2.1.backup = st.backup ∧
      (exportCookiesInternal false raw genTs st needs now okLoad
          okSave).2.1.shadow = st.shadow ∧
      (exportCookiesInternal false raw genTs st needs now okLoad
          okSave).2.1.env = st.env ∧
      ((exportCookiesInternal false raw genTs st needs now okLoad
          okSave).2.1.cache = st.cache ∨
        ∃ c, (get_best_cookies st now okLoad).1 = some c ∧
          (exportCookiesInternal false raw genTs st needs now okLoad
            okSave).2.1.cache = some (c, now)) := by
  obtain ⟨c, st2, heq, hreq, hp, hbk, hsh, henv, hcache⟩ :=
    get_best_cookies_stored st now okLoad hs
  have hred : exportCookiesInternal false raw genTs st needs now okLoad okSave
      = (0, st2, true) := by
    simp only [exportCookiesInternal, hb, heq]
    rw [if_pos (count_required_pos hreq)]
    simp
  rw [hred]
  refine ⟨rfl, rfl, hp, hbk, hsh, henv, ?_⟩
  rcases hcache with h | h
  · exact Or.inl h
  · exact Or.inr ⟨c, by rw [heq], h⟩

/-- Witness for the C5 protection theorem at a store whose primary tier
holds a valid artifact while the browser reports no cookies at all. -/
theorem export_protection_witness :
    browserRequiredOf [] = 0 ∧
      storedAccepted (Store.mk none (some sampleRequired) none none none) 50
        = true ∧
      (exportCookiesInternal false [] "ts"
          (Store.mk none (some sampleRequired) none none none) false 50
          WriteOk.all WriteOk.all).1 = 0 ∧
      (exportCookiesInternal false [] "ts"
          (Store.mk none (some sampleRequired) none none none) false 50
          WriteOk.all WriteOk.all).2.2 = true :=
  ⟨by decide, by decide,
    (export_protection [] "ts"
      (Store.mk none (some sampleRequired) none none none) false 50
      WriteOk.all WriteOk.all (by decide) (by decide)).1,
    (export_protection [] "ts"
      (Store.mk none (some sampleRequired) none none none) false 50
      WriteOk.all WriteOk.all (by decide) (by decide)).2.1⟩

/-- C5 counterexample to the claim as stated: when the memory cache holds an
expired old entry and the primary tier holds the valid stored artifact, the
rejection path still rewrites the memory cache (repopulating it from the
primary tier), so the claim that no memory cache overwrite happens is too
strong. -/
theorem export_protection_cache_cex :
    (exportCookiesInternal false [] ""
        (Store.mk (some ("# old", 0)) (some sampleRequired) none none none)
        false 4000 WriteOk.all WriteOk.all).1 = 0 ∧
      (exportCookiesInternal false [] ""
          (Store.mk (some ("# old", 0)) (some sampleRequired) none none none)
          false 4000 WriteOk.all WriteOk.all).2.1.cache ≠
        (Store.mk (some ("# old", 0)) (some sampleRequired) none none none).cache := by
  constructor <;> decide

/-! ### C10: the post-export session-validity check -/

/-- check_session_valid: at least 5 exported records and a resolved stored
artifact with a required cookie. -/
def check_session_valid (count : Nat) (st : Store) (now : Nat)
    (ok : WriteOk) : Bool × Store :=
  if count < 5 then (false, st)
  else
    match get_best_cookies st now ok with
    | (none, st2) => (false, st2)
    | (some c, st2) => (has_required_cookies c, st2)

/-- The needs-relogin flag stop_login and the forced export assign after an
export of the given record count. -/
def stop_login_needs_relogin (count : Nat) (st : Store) (now : Nat)
    (ok : WriteOk) : Bool :=
  !(check_session_valid count st now ok).1

/-- C10: the session-validity check passes only with at least 5 exported
records and a resolved artifact containing a required-name cookie; hence the
manual-login stop and the forced export raise the needs-relogin flag
whenever fewer than 5 records were exported, even if a required cookie is
present. -/
theorem session_validity_gate (count : Nat) (st : Store) (now : Nat)
    (ok : WriteOk) :
    ((check_session_valid count st now ok).1 = true →
      5 ≤ count ∧ ∃ c, (get_best_cookies st now ok).1 = some c ∧
        has_required_cookies c = true) ∧
      (count < 5 → stop_login_needs_relogin count st now ok = true) := by
  constructor
  · intro h
    by_cases hc : count < 5
    · rw [check_session_valid, if_pos hc] at h
      cases h
    · refine ⟨by omega, ?_⟩
      rw [check_session_valid, if_neg hc] at h
      match hg : get_best_cookies st now ok with
      | (none, st2) =>
          rw [hg] at h
          cases h
      | (some c, st2) =>
          rw [hg] at h
          exact ⟨c, rfl, h⟩
  · intro hc
    rw [stop_login_needs_relogin, check_session_valid, if_pos hc]
    rfl

/-- Witness for C10 at a 3-record export over a valid stored artifact: the
session is deemed invalid and the relogin flag is raised. -/
theorem session_validity_gate_witness :
    (3 : Nat) < 5 ∧
      stop_login_needs_relogin 3
        (Store.mk none (some sampleRequired) none none none) 0 WriteOk.all
        = true :=
  ⟨by decide,
    (session_validity_gate 3
      (Store.mk none (some sampleRequired) none none none) 0 WriteOk.all).2
      (by decide)⟩

/-! ### C8: the error-classified retry loop -/

inductive ErrorType where
  | NETWORK
  | BROWSER_CRASH
  | SESSION_EXPIRED
  | RATE_LIMITED
  | UNKNOWN
deriving DecidableEq, Repr

def NETWORK_KEYWORDS : List String :=
  ["timeout", "connection", "network", "dns", "refused", "reset"]

def BROWSER_KEYWORDS : List String :=
  ["session", "disconnected", "chrome", "driver", "crashed", "dead"]

def SESSION_KEYWORDS : List String :=
  ["sign in", "logged out", "login", "unauthorized", "forbidden"]

/-- classify_error: keyword search over the lowercased message, network
first, then browser crash, then session expiry, then rate limiting. -/
def classify_error (msg : String) : ErrorType :=
  let m := pyLower msg.toList
  if NETWORK_KEYWORDS.any (fun kw => isSubList kw.toList m) then .NETWORK
  else if BROWSER_KEYWORDS.any (fun kw => isSubList kw.toList m) then
    .BROWSER_CRASH
  else if SESSION_KEYWORDS.any (fun kw => isSubList kw.toList m) then
    .SESSION_EXPIRED
  else if isSubList "429".toList m || isSubList "rate".toList m ||
      isSubList "too many".toList m then .RATE_LIMITED
  else .UNKNOWN

def NETWORK_RETRY_COUNT : Nat := 3

/-- The observable side effects of one run of the retry loop. -/
structure RetrySt where
  needsRelogin : Bool
  breakerFailures : Nat
  restarts : Nat
  alerts : List String
  cookieCount : Nat
  lastRefreshSuccess : Bool
  lastError : Option String
deriving DecidableEq, Repr

def RetrySt.init : RetrySt :=
  { needsRelogin := false, breakerFailures := 0, restarts := 0, alerts := [],
    cookieCount := 0, lastRefreshSuccess := true, lastError := none }

/-- What one refresh_and_export attempt produced. -/
inductive RefreshOutcome where
  | ok (count : Nat)
  | err (msg : String)
deriving DecidableEq, Repr

/-- The status writes performed after the loop ends without success. -/
def failFinish (s : RetrySt) : RetrySt :=
  { s with lastRefreshSuccess := false,
           lastError := some "Refresh failed after retries" }

def sessionAlert : String := "Session expired! Manual re-login required."

/-- One circuit breaker penalty. -/
def penalize (s : RetrySt) : RetrySt :=
  { s with breakerFailures := s.breakerFailures + 1 }

/-- _refresh_with_retry, one attempt per outcome: network and rate-limit
errors retry within the attempt budget and penalize the breaker on the last
attempt; a browser crash restarts and retries (penalizing from the second
attempt on); an unknown error penalizes and stops; a session-expired error
stops immediately, raises the relogin flag and alerts without penalizing. -/
def refreshAux : Nat → List RefreshOutcome → RetrySt → Bool × RetrySt
  | attempt, outs, s =>
    if NETWORK_RETRY_COUNT < attempt then (false, failFinish s)
    else
      match outs with
      | [] => (false, failFinish s)
      | .ok n :: _ => (true, { s with cookieCount := n })
      | .err m :: rest =>
        match classify_error m with
        | .NETWORK =>
            if attempt < NETWORK_RETRY_COUNT then
              refreshAux (attempt + 1) rest s
            else (false, failFinish (penalize s))
        | .BROWSER_CRASH =>
            if attempt = 0 then
              refreshAux (attempt + 1) rest { s with restarts := s.restarts + 1 }
            else
              refreshAux (attempt + 1) rest
                (penalize { s with restarts := s.restarts + 1 })
        | .SESSION_EXPIRED =>
            (false, failFinish
              { s with needsRelogin := true,
                       alerts := s.alerts ++ [sessionAlert] })
        | .RATE_LIMITED =>
            if attempt < NETWORK_RETRY_COUNT then
              refreshAux (attempt + 1) rest s
            else (false, failFinish (penalize s))
        | .UNKNOWN =>
            (false, failFinish (penalize { s with lastError := some m }))

/-- _refresh_with_retry over a script of attempt outcomes. -/
def refresh_with_retry (outs : List RefreshOutcome) (s : RetrySt) :
    Bool × RetrySt :=
  refreshAux 0 outs s

/-- C8: at any attempt within the budget, an error classified as session
expired ends the loop at once — the result does not depend on the remaining
outcomes — with the needs-relogin flag raised, the session alert emitted,
and no circuit breaker penalty for that failure. -/
theorem session_expired_no_retry (attempt : Nat) (s : RetrySt) (m : String)
    (rest : List RefreshOutcome)
    (hcls : classify_error m = .SESSION_EXPIRED)
    (hatt : attempt ≤ NETWORK_RETRY_COUNT) :
    refreshAux attempt (.err m :: rest) s =
      (false, failFinish
        { s with needsRelogin := true,
                 alerts := s.alerts ++ [sessionAlert] }) ∧
      (refreshAux attempt (.err m :: rest) s).2.breakerFailures
        = s.breakerFailures ∧
      (refreshAux attempt (.err m :: rest) s).2.needsRelogin = true ∧
      (refreshAux attempt (.err m :: rest) s).2.alerts
        = s.alerts ++ [sessionAlert] := by
  have hred : refreshAux attempt (.err m :: rest) s =
      (false, failFinish
        { s with needsRelogin := true,
                 alerts := s.alerts ++ [sessionAlert] }) := by
    rw [refreshAux]
    rw [if_neg (by omega)]
    simp only [hcls]
  exact ⟨hred, by rw [hred]; rfl, by rw [hred]; rfl, by rw [hred]; rfl⟩

/-- Witness for C8: a sign-in error message at the first attempt. -/
theorem session_expired_no_retry_witness :
    refreshAux 0 [.err "sign in required"] RetrySt.init =
      (false, failFinish
        { RetrySt.init with needsRelogin := true,
                            alerts := RetrySt.init.alerts ++ [sessionAlert] }) ∧
      (refreshAux 0 [.err "sign in required"] RetrySt.init).2.breakerFailures
        = RetrySt.init.breakerFailures ∧
      (refreshAux 0 [.err "sign in required"] RetrySt.init).2.needsRelogin
        = true ∧
      (refreshAux 0 [.err "sign in required"] RetrySt.init).2.alerts
        = RetrySt.init.alerts ++ [sessionAlert] :=
  session_expired_no_retry 0 RetrySt.init "sign in required" []
    (by decide) (by decide)

end CookieManager
